import Mathlib

/-!
Verification of the lead-monitoring dashboard (Next.js/TypeScript repository).

The development shallowly embeds the normalization and metric logic of the
repository:
- the JSON value model and JavaScript truthiness / property access semantics
  used by the proxy route handlers;
- the date normalizers parseDate (src/app/api/proxy-leads-all/route.ts) and
  parseImoviewDate (src/app/api/proxy-leads/route.ts);
- the list extractors of both proxy routes;
- the lead normalizers mapAtendimento / mapBruto (proxy-leads-all) and the
  inline mapper of proxy-leads;
- both GET handlers, with upstream fetch results modelled as explicit
  outcomes (exception, non-OK response, unparseable body, parsed payload);
- the dashboard SLA classification getSLAInfo (src/app/page.tsx and
  src/app/relatorios/page.tsx) and the KPI computation (src/app/page.tsx).

JavaScript machine details are embedded explicitly: numbers appearing here
are integers (epoch milliseconds, counts), Math.floor on an integer quotient
is Int.fdiv, string truthiness is non-emptiness, and property access on
null/undefined throws (modelled with Except).
-/

/-- JavaScript value as produced by JSON.parse, extended with the
undefined value that property access can yield at runtime. -/
inductive Json where
  | undefined : Json
  | null : Json
  | bool : Bool → Json
  | num : Int → Json
  | str : String → Json
  | arr : List Json → Json
  | obj : List (String × Json) → Json

/-- JavaScript truthiness: undefined, null, false, 0 and the empty string are
falsy; every array and object (including empty ones) is truthy. -/
def truthy : Json → Bool
  | .undefined => false
  | .null => false
  | .bool b => b
  | .num n => n != 0
  | .str s => s != ""
  | .arr _ => true
  | .obj _ => true

/-- Property lookup in an object literal: the last binding of a duplicated
key wins (as for JSON.parse), and a missing key yields undefined. -/
def jsLookup (kvs : List (String × Json)) (k : String) : Json :=
  match kvs.reverse.find? (fun p => p.1 == k) with
  | some p => p.2
  | none => .undefined

/-- Optional-chaining / known-non-null property access v[k]: null and
undefined yield undefined here (callers that can throw use jsDot), objects
look the key up, and primitives or arrays have none of the accessed keys. -/
def jsQDot (v : Json) (k : String) : Json :=
  match v with
  | .undefined => .undefined
  | .null => .undefined
  | .obj kvs => jsLookup kvs k
  | _ => .undefined

/-- Plain property access v[k] or v.k: throws a TypeError when v is null or
undefined, otherwise as jsQDot. -/
def jsDot (v : Json) (k : String) : Except Unit Json :=
  match v with
  | .undefined => .error ()
  | .null => .error ()
  | v => .ok (jsQDot v k)

/-- JavaScript a || b on arbitrary values: the first truthy operand. -/
def jsOrJ (a b : Json) : Json := if truthy a then a else b

/-- JavaScript a || b where both operands are strings. -/
def jsOrS (a b : String) : String := if a = "" then b else a

/-- JavaScript a || b where both operands are string-or-null. -/
def jsOrO (a b : Option String) : Option String :=
  match a with
  | some s => if s = "" then b else some s
  | none => b

/-- JavaScript a || b where a is string-or-null and b a string. -/
def jsOrOD (a : Option String) (b : String) : String :=
  match a with
  | some s => if s = "" then b else s
  | none => b

section SLA

/-- SLA record returned by getSLAInfo in src/app/page.tsx. -/
structure SLAInfo where
  isLate : Bool
  label : String
  status : String
deriving Repr, DecidableEq

/-- SLA record returned by getSLAInfo in src/app/relatorios/page.tsx. -/
structure SLAInfoRel where
  isLate : Bool
  label : String
  diffMinutes : Int
deriving Repr, DecidableEq

/-- getSLAInfo from src/app/page.tsx lines 226-246. Date strings are
represented by their epoch-millisecond values: entryTime is
new Date(entry).getTime(), firstInteraction the parsed first-interaction
time when present, and now the current clock new Date().getTime().
Math.floor of the millisecond quotient is integer floor division. -/
def getSLAInfo (entryTime : Int) (firstInteraction : Option Int) (now : Int) :
    SLAInfo :=
  let endTime := firstInteraction.getD now
  let diffMs := endTime - entryTime
  let diffMinutes := diffMs.fdiv (1000 * 60)
  let diffHours := diffMinutes.fdiv 60
  let isLate := diffHours ≥ 2
  let label :=
    match firstInteraction with
    | some _ =>
      if diffMinutes < 60 then s!"Atendido em {diffMinutes}min"
      else s!"Atendido em {diffHours}h {diffMinutes % 60}min"
    | none =>
      if diffMinutes < 60 then s!"Esperando há {diffMinutes}min"
      else s!"Esperando há {diffHours}h {diffMinutes % 60}min"
  { isLate := isLate
    label := label
    status := if isLate then "Atrasado" else "No Prazo" }

/-- getSLAInfo from src/app/relatorios/page.tsx lines 93-112 (labels use a
bare m suffix and the record also carries diffMinutes). -/
def getSLAInfoRel (entryTime : Int) (firstInteraction : Option Int)
    (now : Int) : SLAInfoRel :=
  let endTime := firstInteraction.getD now
  let diffMs := endTime - entryTime
  let diffMinutes := diffMs.fdiv (1000 * 60)
  let diffHours := diffMinutes.fdiv 60
  let isLate := diffHours ≥ 2
  let label :=
    match firstInteraction with
    | some _ =>
      if diffMinutes < 60 then s!"Atendido em {diffMinutes}m"
      else s!"Atendido em {diffHours}h {diffMinutes % 60}m"
    | none =>
      if diffMinutes < 60 then s!"Esperando há {diffMinutes}m"
      else s!"Esperando há {diffHours}h {diffMinutes % 60}m"
  { isLate := isLate, label := label, diffMinutes := diffMinutes }

/-- Floor division by a positive constant reflects lower bounds: the nested
floor divisions of the SLA computation reach 2 hours exactly when the raw
millisecond difference reaches 7200000. -/
theorem fdiv_sla_boundary (x : Int) :
    ((x.fdiv 60000).fdiv 60 ≥ 2) ↔ x ≥ 7200000 := by
  have h1 : (60000 : Int) * x.fdiv 60000 + x.fmod 60000 = x :=
    Int.fdiv_add_fmod x 60000
  have h2 : 0 ≤ x.fmod 60000 := Int.fmod_nonneg' x (by norm_num)
  have h3 : x.fmod 60000 < 60000 := Int.fmod_lt_of_pos x (by norm_num)
  have h4 : (60 : Int) * (x.fdiv 60000).fdiv 60 + (x.fdiv 60000).fmod 60 =
      x.fdiv 60000 := Int.fdiv_add_fmod _ 60
  have h5 : 0 ≤ (x.fdiv 60000).fmod 60 := Int.fmod_nonneg' _ (by norm_num)
  have h6 : (x.fdiv 60000).fmod 60 < 60 := Int.fmod_lt_of_pos _ (by norm_num)
  omega

end SLA

/-- C1. The SLA classification marks a lead late exactly when its wait —
first interaction time (or the current time when absent) minus entry time —
is at least 120 minutes (in milliseconds, at least 7200000); the boundary is
inclusive, so a wait of exactly 120 minutes is late. Both copies of
getSLAInfo (dashboard and reports page) agree on the classification. -/
theorem C1_sla_late_iff_wait_ge_120min (entryTime : Int)
    (firstInteraction : Option Int) (now : Int) :
    ((getSLAInfo entryTime firstInteraction now).isLate = true ↔
      firstInteraction.getD now - entryTime ≥ 120 * 60000) ∧
    (getSLAInfoRel entryTime firstInteraction now).isLate =
      (getSLAInfo entryTime firstInteraction now).isLate ∧
    (getSLAInfo entryTime (some (entryTime + 120 * 60000)) now).isLate =
      true := by
  refine ⟨?_, by simp [getSLAInfo, getSLAInfoRel], ?_⟩
  · simp only [getSLAInfo, ge_iff_le, decide_eq_true_eq]
    have := fdiv_sla_boundary (firstInteraction.getD now - entryTime)
    constructor
    · intro h
      have h2 : ((firstInteraction.getD now - entryTime).fdiv 60000).fdiv 60
          ≥ 2 := by simpa using h
      omega
    · intro h
      simp only [show (1000 : Int) * 60 = 60000 by norm_num]
      exact this.mpr (by omega)
  · simp only [getSLAInfo, Option.getD, decide_eq_true_eq]
    have := fdiv_sla_boundary (entryTime + 120 * 60000 - entryTime)
    simp only [show (1000 : Int) * 60 = 60000 by norm_num]
    exact this.mpr (by omega)

section Dates

/-- Whitespace characters removed by String.trim in JavaScript (the
characters relevant to this code base). -/
def isWs (c : Char) : Bool := c = ' ' || c = '\t' || c = '\n' || c = '\r'

/-- JavaScript String.trim modelled on character lists. -/
def jsTrim (l : List Char) : List Char :=
  ((l.dropWhile isWs).reverse.dropWhile isWs).reverse

/-- JavaScript String.split with a single-character separator, on character
lists: always returns a non-empty list of (possibly empty) fragments. -/
def splitOnChar (sep : Char) : List Char → List (List Char)
  | [] => [[]]
  | c :: rest =>
    if c = sep then [] :: splitOnChar sep rest
    else
      match splitOnChar sep rest with
      | [] => [[c]]
      | h :: t => (c :: h) :: t

/-- Character of a list at an index, with a NUL default (used only to state
the anchored regex test below; positions past the end fail the test through
the length conjunct). -/
def charAt (l : List Char) (i : Nat) : Char := l.getD i '\x00'

/-- Test of the anchored regular expression matching four digits, a dash,
two digits, a dash, two digits and a capital T at the start of the input
(used by parseDate to detect already-ISO strings). -/
def isoAnchor (l : List Char) : Bool :=
  decide (11 ≤ l.length) &&
  (charAt l 0).isDigit && (charAt l 1).isDigit && (charAt l 2).isDigit &&
  (charAt l 3).isDigit && (charAt l 4 = '-') && (charAt l 5).isDigit &&
  (charAt l 6).isDigit && (charAt l 7 = '-') && (charAt l 8).isDigit &&
  (charAt l 9).isDigit && (charAt l 10 = 'T')

/-- Date normalizer parseDate of src/app/api/proxy-leads-all/route.ts lines
16-31, on character lists: empty or whitespace-only input gives null,
ISO-anchored input is returned trimmed, otherwise the trimmed input is split
on a space into date and time parts, the date part must split on slashes
into exactly three components, and missing time components default. -/
def parseDateL (input : List Char) : Option (List Char) :=
  if input = [] then none
  else
    let trimmed := jsTrim input
    if trimmed = [] then none
    else if isoAnchor trimmed then some trimmed
    else
      let parts := splitOnChar ' ' trimmed
      let datePart := parts.headD []
      let timePart :=
        match parts with
        | _ :: t :: _ => if t = [] then "00:00".toList else t
        | _ => "00:00".toList
      match splitOnChar '/' datePart with
      | [d, m, y] =>
        let hm := splitOnChar ':' timePart
        let hh := hm.headD []
        let mm := match hm with | _ :: m2 :: _ => m2 | _ => []
        some (y ++ '-' :: m ++ '-' :: d ++ 'T' ::
          (if hh = [] then "00".toList else hh) ++ ':' ::
          (if mm = [] then "00".toList else mm) ++ ":00".toList)
      | _ => none

/-- String-level wrapper of parseDateL. -/
def parseDate (input : String) : Option String :=
  (parseDateL input.toList).map String.mk

end Dates

section ImoviewDate

/-- String fragment or undefined: destructured components of a JavaScript
split can be undefined, and template interpolation then prints the word
undefined. -/
def toStrU (o : Option (List Char)) : List Char :=
  match o with
  | some l => l
  | none => "undefined".toList

/-- Date normalizer parseImoviewDate of src/app/api/proxy-leads/route.ts
lines 71-82. The argument is an arbitrary JavaScript value: falsy input
gives null, a non-string truthy input makes split throw inside the local
try block (also null), and a non-empty string is split on a space and the
date part on slashes with no arity check, destructured components being
undefined when missing. -/
def parseImoviewDate (v : Json) : Option (List Char) :=
  if !truthy v then none
  else
    match v with
    | .str s =>
      let parts := splitOnChar ' ' s.toList
      let datePart := parts.headD []
      let timePart : Option (List Char) :=
        match parts with
        | _ :: t :: _ => some t
        | _ => none
      if datePart = [] then none
      else
        let dmy := splitOnChar '/' datePart
        let day := dmy.headD []
        let month := dmy[1]?
        let year := dmy[2]?
        let hm :=
          match timePart with
          | some t => if t = [] then ["00".toList, "00".toList]
                      else splitOnChar ':' t
          | none => ["00".toList, "00".toList]
        let hour := hm.headD []
        let minute := hm[1]?
        some (toStrU year ++ '-' :: toStrU month ++ '-' :: day ++ 'T' ::
          hour ++ ':' :: toStrU minute ++ ":00".toList)
    | _ => none

end ImoviewDate

section Extract

/-- First candidate key whose value is an array, in the fixed priority
order of the candidate list. -/
def firstArrayAmong (kvs : List (String × Json)) : List String → List Json
  | [] => []
  | k :: rest =>
    match jsLookup kvs k with
    | .arr xs => xs
    | _ => firstArrayAmong kvs rest

/-- Wrapper keys tried by extractList of proxy-leads-all, in order. -/
def candidateKeys : List String :=
  ["lista", "leads", "atendimentos", "items", "resultado", "data"]

/-- Wrapper keys tried by extractList of proxy-leads, in order. -/
def candidateKeysPL : List String := ["lista", "atendimentos", "resultado"]

/-- List extractor extractList of src/app/api/proxy-leads-all/route.ts lines
33-43: falsy payloads give the empty list, arrays are returned as they are,
and otherwise the six wrapper keys are tried in order; non-object payloads
have no keys and give the empty list. -/
def extractList (data : Json) : List Json :=
  if !truthy data then []
  else
    match data with
    | .arr xs => xs
    | .obj kvs => firstArrayAmong kvs candidateKeys
    | _ => []

/-- List extractor extractList of src/app/api/proxy-leads/route.ts lines
55-63: same shape but with only the three wrapper keys lista, atendimentos
and resultado. -/
def extractListPL (data : Json) : List Json :=
  if !truthy data then []
  else
    match data with
    | .arr xs => xs
    | .obj kvs => firstArrayAmong kvs candidateKeysPL
    | _ => []

end Extract

example : parseDate "25/12/2024 14:30" = some "2024-12-25T14:30:00" := by
  decide

example : parseDate "25/12/2024" = some "2024-12-25T00:00:00" := by decide

example : parseDate "garbage" = none := by decide

example : parseDate "  " = none := by decide

example : parseDate "2024-12-25T09:00:00" = some "2024-12-25T09:00:00" := by
  decide

example :
    String.mk (toStrU (parseImoviewDate (.str "25/12/2024 14:30"))) =
      "2024-12-25T14:30:00" := by decide

example :
    String.mk (toStrU (parseImoviewDate (.str "bad"))) =
      "undefined-undefined-badT00:00:00" := by decide

example :
    extractList (.obj [("x", .num 1), ("leads", .arr [.null])]) =
      [.null] := by rfl

example : extractListPL (.obj [("leads", .arr [.null])]) = [] := by rfl

section Normalizers

/-- Helper getStr of src/app/api/proxy-leads-all/route.ts lines 5-8 on the
field list of the receiver: the value at the key when it is a string, and
the empty string otherwise. -/
def getStrF (kvs : List (String × Json)) (k : String) : String :=
  match jsLookup kvs k with
  | .str s => s
  | _ => ""

/-- Helper getNumOrStr of src/app/api/proxy-leads-all/route.ts lines 10-14:
the value at the key when it is a string or a number, undefined (none)
otherwise. -/
def getNumOrStrF (kvs : List (String × Json)) (k : String) : Option Json :=
  match jsLookup kvs k with
  | .str s => some (.str s)
  | .num n => some (.num n)
  | _ => none

/-- Field list through which a mapped item is read: property access on a
null or undefined item throws (TypeError, modelled as the error case);
objects expose their bindings; primitive or array items have none of the
accessed keys and behave as an empty object. -/
def objFields : Json → Except Unit (List (String × Json))
  | .undefined => .error ()
  | .null => .error ()
  | .obj kvs => .ok kvs
  | _ => .ok []

/-- Canonical lead shape produced by src/app/api/proxy-leads-all/route.ts
(the id keeps its upstream string-or-number value, with a synthesized
random string when absent). -/
structure Lead where
  id : Json
  nome : String
  telefone : String
  email : String
  status : String
  time : String
  data_entrada : String
  primeira_interacao : Option String
  origem : String
  tem_atendimento : Bool

/-- Field list of the nested lead object of an attendance record: the
expression item.lead || an empty object, read through getStr, which sees
string fields only when the value is an object. -/
def leadFieldsOf (kvs : List (String × Json)) : List (String × Json) :=
  match jsLookup kvs "lead" with
  | .obj l => l
  | _ => []

/-- Body of mapAtendimento (src/app/api/proxy-leads-all/route.ts lines
104-137) on the field list of a non-null item; rnd is the
Math.random().toString() value used when the upstream id is absent and
nowIso the current new Date().toISOString() fallback entry time. The
nested lead object defaults to an empty object when falsy, and truthy
non-objects carry no string fields. -/
def mapAtendimentoCore (kvs : List (String × Json)) (rnd nowIso : String) :
    Lead :=
  let leadKvs := leadFieldsOf kvs
  { id := (getNumOrStrF kvs "codigo").getD (.str rnd)
    nome := jsOrS (getStrF leadKvs "nome") (jsOrS (getStrF kvs "nome")
      "Sem Nome")
    telefone := jsOrS (getStrF leadKvs "telefone1")
      (jsOrS (getStrF leadKvs "celular") (jsOrS (getStrF kvs "telefone") ""))
    email := jsOrS (getStrF leadKvs "email") (jsOrS (getStrF kvs "email") "")
    status := jsOrS (getStrF kvs "situacao") "Novo"
    time := jsOrS (getStrF kvs "unidadenome") "Geral"
    data_entrada := jsOrOD
      (jsOrO (parseDate (getStrF kvs "datahoraentradalead"))
        (parseDate (getStrF kvs "data_entrada"))) nowIso
    primeira_interacao := jsOrO
      (jsOrO (parseDate (getStrF kvs "datahoraultimainteracao"))
        (parseDate (getStrF kvs "primeira_interacao"))) none
    origem := jsOrS (getStrF kvs "midia") "Site"
    tem_atendimento := true }

/-- mapAtendimento on an arbitrary extracted item: the first property
access throws when the item is null. -/
def mapAtendimento (item : Json) (rnd nowIso : String) : Except Unit Lead :=
  (objFields item).map (fun kvs => mapAtendimentoCore kvs rnd nowIso)

/-- Body of mapBruto (src/app/api/proxy-leads-all/route.ts lines 139-171)
on the field list of a non-null item: every fallback of the phone chain
reads a top-level field, primeira_interacao is always undefined and
tem_atendimento always false. -/
def mapBrutoCore (kvs : List (String × Json)) (rnd nowIso : String) : Lead :=
  { id := ((getNumOrStrF kvs "id") <|> (getNumOrStrF kvs "codigo")).getD
      (.str rnd)
    nome := jsOrS (getStrF kvs "nome") (jsOrS (getStrF kvs "lead_nome")
      "Sem Nome")
    telefone := jsOrS (getStrF kvs "telefone1")
      (jsOrS (getStrF kvs "celular")
        (jsOrS (getStrF kvs "telefone") (jsOrS (getStrF kvs "phone") "")))
    email := jsOrS (getStrF kvs "email") ""
    status := jsOrS (getStrF kvs "status") "Novo"
    time := jsOrS (getStrF kvs "unidadenome") (jsOrS (getStrF kvs "time")
      "Geral")
    data_entrada := jsOrOD
      (jsOrO (parseDate (getStrF kvs "data_criacao"))
        (parseDate (getStrF kvs "datahoraentradalead"))) nowIso
    primeira_interacao := none
    origem := jsOrS (getStrF kvs "origem") "Site"
    tem_atendimento := false }

/-- mapBruto on an arbitrary extracted item: the first property access
throws when the item is null. -/
def mapBruto (item : Json) (rnd nowIso : String) : Except Unit Lead :=
  (objFields item).map (fun kvs => mapBrutoCore kvs rnd nowIso)

end Normalizers

section ProxyLeads

mutual

/-- JavaScript toString on a non-null value (the call site guards null and
undefined with optional chaining): numbers print their digits, arrays join
their elements with commas, and plain objects print the object tag. -/
def jsToStr : Json → String
  | .undefined => "undefined"
  | .null => "null"
  | .bool true => "true"
  | .bool false => "false"
  | .num n => toString n
  | .str s => s
  | .arr xs => jsToStrList xs
  | .obj _ => "[object Object]"

/-- Comma-joined array elements, null and undefined printing as empty. -/
def jsToStrList : List Json → String
  | [] => ""
  | [x] => jsToStrElem x
  | x :: xs => jsToStrElem x ++ "," ++ jsToStrList xs

/-- Element conversion inside a joined array. -/
def jsToStrElem : Json → String
  | .null => ""
  | .undefined => ""
  | v => jsToStr v

end

/-- Lead shape produced by the inline mapper of
src/app/api/proxy-leads/route.ts lines 85-96; fields built with the raw
JavaScript OR chains keep whatever value the upstream record carried. -/
structure MappedLeadPL where
  id : String
  nome : Json
  telefone : Json
  email : Json
  status : Json
  time : Json
  data_entrada : String
  primeira_interacao : Option String
  origem : Json
  raw : Json

/-- Body of the proxy-leads item mapper on the field list of a non-null
item (src/app/api/proxy-leads/route.ts lines 85-96). -/
def mapLeadPLCore (item : Json) (kvs : List (String × Json))
    (rnd nowIso : String) : MappedLeadPL :=
  let lead := jsLookup kvs "lead"
  { id :=
      match jsLookup kvs "codigo" with
      | .undefined => rnd
      | .null => rnd
      | v => jsOrS (jsToStr v) rnd
    nome := jsOrJ (jsQDot lead "nome") (.str "Sem Nome")
    telefone := jsOrJ (jsQDot lead "telefone1")
      (jsOrJ (jsQDot lead "celular") (.str ""))
    email := jsOrJ (jsQDot lead "email") (.str "")
    status := jsOrJ (jsLookup kvs "situacao") (.str "Novo")
    time := jsOrJ (jsLookup kvs "unidadenome") (.str "Geral")
    data_entrada := jsOrOD
      ((parseImoviewDate (jsLookup kvs "datahoraentradalead")).map String.mk)
      nowIso
    primeira_interacao := jsOrO
      ((parseImoviewDate (jsLookup kvs "datahoraultimainteracao")).map
        String.mk) none
    origem := jsOrJ (jsLookup kvs "midia") (.str "Site")
    raw := item }

/-- Item mapper of proxy-leads on an arbitrary extracted item: the first
property access (item.codigo) throws when the item is null. -/
def mapLeadPL (item : Json) (rnd nowIso : String) :
    Except Unit MappedLeadPL :=
  (objFields item).map (fun kvs => mapLeadPLCore item kvs rnd nowIso)

end ProxyLeads

section Handlers

/-- Outcome of one upstream fetch: the network call threw, the response was
not OK, the body failed to parse as JSON, or a parsed payload came back. -/
inductive FetchOutcome where
  | exn : FetchOutcome
  | nonOk : FetchOutcome
  | badBody : FetchOutcome
  | ok : Json → FetchOutcome

/-- Failure outcomes: everything except a parsed payload. -/
def FetchOutcome.isFail : FetchOutcome → Bool
  | .ok _ => false
  | _ => true

/-- Result of fetchLeads in src/app/api/proxy-leads/route.ts lines 15-45:
every failure kind is caught locally and returns an empty array, a
successful fetch returns the parsed payload. -/
def fetchLeadsRes : FetchOutcome → Json
  | .exn => .arr []
  | .nonOk => .arr []
  | .badBody => .arr []
  | .ok p => p

/-- Result of fetchAtendimentos in src/app/api/proxy-leads-all/route.ts
lines 61-76: failures give the empty list, success gives the extracted
list of the payload. -/
def fetchAtendimentosRes : FetchOutcome → List Json
  | .ok p => extractList p
  | _ => []

/-- Result of fetchLeadsBrutos in src/app/api/proxy-leads-all/route.ts
lines 78-96: candidate URLs are tried in order, failures and empty
extracted lists skip to the next candidate, and the first non-empty
extracted list wins. -/
def fetchBrutosRes : List FetchOutcome → List Json
  | [] => []
  | o :: rest =>
    match o with
    | .ok p =>
      let l := extractList p
      if l.length > 0 then l else fetchBrutosRes rest
    | _ => fetchBrutosRes rest

/-- Stable insertion of an element into a list sorted by strictly
descending key, modelling the Array.prototype.sort comparator
(a, b) => key(b) - key(a) of both route handlers. -/
def insertByDesc {α : Type} (key : α → Int) (x : α) : List α → List α
  | [] => [x]
  | y :: ys => if key x > key y then x :: y :: ys else y :: insertByDesc key x ys

/-- Stable sort by descending key. -/
def sortByKeyDesc {α : Type} (key : α → Int) : List α → List α
  | [] => []
  | x :: xs => insertByDesc key x (sortByKeyDesc key xs)

/-- Body of an HTTP response of the proxy routes: a leads list or an error
object. -/
inductive RespBody (α : Type) where
  | leads : List α → RespBody α
  | error : String → RespBody α

/-- HTTP response of a proxy route. -/
structure Resp (α : Type) where
  status : Nat
  body : RespBody α

/-- Indexed traversal of the extracted items by a fallible mapper, each
call receiving its own Math.random value. -/
def mapAllJ {α : Type} (f : Json → String → Except Unit α)
    (rnd : Nat → String) : List Json → Nat → Except Unit (List α)
  | [], _ => .ok []
  | x :: xs, i => do
    let l ← f x (rnd i)
    let ls ← mapAllJ f rnd xs (i + 1)
    pure (l :: ls)

/-- GET handler of src/app/api/proxy-leads/route.ts. Parameters: the
IMOVIEW_API_KEY environment variable, the outcomes of the two parallel
upstream fetches (finalidade 1 and 2), the stream of Math.random values,
the current-time ISO string, and the new Date(...).getTime() parse of the
normalized entry dates used by the sort comparator. The outer try/catch
turns an exception thrown while mapping into a 500 error response. -/
def proxyLeadsGET (apiKey : Option String) (o1 o2 : FetchOutcome)
    (rnd : Nat → String) (nowIso : String) (dparse : String → Int) :
    Resp MappedLeadPL :=
  match apiKey with
  | none =>
    ⟨500, .error "API Key não configurada no servidor (IMOVIEW_API_KEY)"⟩
  | some _ =>
    let aluguelData := fetchLeadsRes o1
    let vendaData := fetchLeadsRes o2
    let rawLeads := extractListPL aluguelData ++ extractListPL vendaData
    match mapAllJ (fun it r => mapLeadPL it r nowIso) rnd rawLeads 0 with
    | .error _ => ⟨500, .error "Falha interna ao conectar com a API"⟩
    | .ok ls =>
      ⟨200, .leads (sortByKeyDesc (fun l => dparse l.data_entrada) ls)⟩

/-- GET handler of src/app/api/proxy-leads-all/route.ts. Outcomes: the two
atendimento fetches and the three candidate URLs of the raw-lead fetch.
This handler has no outer try/catch, so an exception thrown while mapping
(a null item) propagates out of the handler: the error case of the result
is the handler throwing rather than returning a response. -/
def proxyLeadsAllGET (apiKey : Option String) (a1 a2 b1 b2 b3 : FetchOutcome)
    (rndA rndB : Nat → String) (nowIso : String) (dparse : String → Int) :
    Except Unit (Resp Lead) :=
  match apiKey with
  | none =>
    .ok ⟨500, .error "API Key não configurada no servidor (IMOVIEW_API_KEY)"⟩
  | some _ => do
    let atAluguel := fetchAtendimentosRes a1
    let atVenda := fetchAtendimentosRes a2
    let brutos := fetchBrutosRes [b1, b2, b3]
    let atendimentos ← mapAllJ (fun it r => mapAtendimento it r nowIso) rndA
      (atAluguel ++ atVenda) 0
    let leadsBrutos ← mapAllJ (fun it r => mapBruto it r nowIso) rndB
      brutos 0
    pure ⟨200, .leads (sortByKeyDesc (fun l => dparse l.data_entrada)
      (leadsBrutos ++ atendimentos))⟩

end Handlers

section Kpis

/-- Dashboard-side lead record (the fields of the Lead interface of
src/app/page.tsx that the KPI computation reads). -/
structure PageLead where
  status : String
  primeira_interacao : Option String

/-- Truthiness of an optional string field: absent and empty are falsy. -/
def strOptTruthy : Option String → Bool
  | none => false
  | some s => s != ""

/-- Test whether the needle occurs at the start of the haystack. -/
def startsWithL : List Char → List Char → Bool
  | [], _ => true
  | _ :: _, [] => false
  | a :: as, b :: bs => a = b && startsWithL as bs

/-- JavaScript String.includes on character lists: the needle occurs
somewhere in the haystack. -/
def includesL (needle : List Char) : List Char → Bool
  | [] => startsWithL needle []
  | c :: rest => startsWithL needle (c :: rest) || includesL needle rest

/-- KPI record of src/app/page.tsx lines 185-193. The conversao field is a
percentage string formatted from floating-point division
(agendamentos / total * 100).toFixed(1); being display-only floating-point
formatting it is not modelled, the four counts are. -/
structure Kpis where
  totalLeads : Nat
  agendamentos : Nat
  atendimento : Nat
  pendentes : Nat

/-- KPI computation of src/app/page.tsx lines 185-193 over the filtered
lead list. -/
def kpis (filteredLeads : List PageLead) : Kpis :=
  { totalLeads := filteredLeads.length
    agendamentos := (filteredLeads.filter (fun l =>
      includesL ("visita".toList) (l.status.toLower.toList))).length
    atendimento := (filteredLeads.filter (fun l =>
      l.status.toLower = "em atendimento" ∨
        l.status.toLower = "contato feito")).length
    pendentes := (filteredLeads.filter (fun l =>
      !strOptTruthy l.primeira_interacao)).length }

end Kpis

section ExtractProofs

/-- Array test on a JavaScript value (Array.isArray). -/
def isArr : Json → Bool
  | .arr _ => true
  | _ => false

/-- When no candidate key holds an array, the candidate scan yields the
empty list. -/
theorem firstArrayAmong_eq_nil (kvs : List (String × Json)) :
    ∀ ks : List String, (∀ k ∈ ks, isArr (jsLookup kvs k) = false) →
      firstArrayAmong kvs ks = [] := by
  intro ks
  induction ks with
  | nil => intro _; rfl
  | cons k rest ih =>
    intro h
    have hk := h k (List.mem_cons_self k rest)
    have hrest := fun k' hk' => h k' (List.mem_cons_of_mem k hk')
    cases hl : jsLookup kvs k <;>
      simp_all [firstArrayAmong, isArr]

/-- The candidate scan returns the value of the first key that holds an
array, in the priority order of the candidate list. -/
theorem firstArrayAmong_eq_of_found (kvs : List (String × Json))
    (k : String) (xs : List Json) :
    ∀ ks1 ks2, jsLookup kvs k = .arr xs →
      (∀ k' ∈ ks1, isArr (jsLookup kvs k') = false) →
      firstArrayAmong kvs (ks1 ++ k :: ks2) = xs := by
  intro ks1
  induction ks1 with
  | nil =>
    intro ks2 hk _
    simp [firstArrayAmong, hk]
  | cons a rest ih =>
    intro ks2 hk h
    have ha := h a (List.mem_cons_self a rest)
    have hrest := fun k' hk' => h k' (List.mem_cons_of_mem a hk')
    cases hl : jsLookup kvs a <;>
      simp_all [firstArrayAmong, isArr]

end ExtractProofs

/-- C3 counterexample. The claim describes a single List Extractor trying
the six wrapper keys lista, leads, atendimentos, items, resultado, data;
but the copy in src/app/api/proxy-leads/route.ts tries only lista,
atendimentos, resultado: on the payload with key leads holding an array,
the claimed behaviour demands that array, yet that extractor returns the
empty list (while the proxy-leads-all copy does return it). -/
theorem C3_cex_extractListPL_misses_leads_key :
    extractListPL (.obj [("leads", .arr [.num 1])]) = [] ∧
    extractList (.obj [("leads", .arr [.num 1])]) = [.num 1] ∧
    jsLookup [("leads", .arr [.num 1])] "leads" = .arr [.num 1] := by
  refine ⟨rfl, rfl, rfl⟩

/-- C3 amended. The proxy-leads-all extractor returns an array payload
itself, else the value of the first key among lista, leads, atendimentos,
items, resultado, data that holds an array, else (including null or
undefined payloads) the empty list; the proxy-leads extractor behaves the
same but with the shorter candidate list lista, atendimentos, resultado. -/
theorem C3_extract_list_priority_order :
    (∀ xs, extractList (.arr xs) = xs ∧ extractListPL (.arr xs) = xs) ∧
    (extractList .null = [] ∧ extractList .undefined = [] ∧
      extractListPL .null = [] ∧ extractListPL .undefined = []) ∧
    (∀ kvs, (∀ k ∈ candidateKeys, isArr (jsLookup kvs k) = false) →
      extractList (.obj kvs) = []) ∧
    (∀ kvs, (∀ k ∈ candidateKeysPL, isArr (jsLookup kvs k) = false) →
      extractListPL (.obj kvs) = []) ∧
    (∀ kvs k xs ks1 ks2, candidateKeys = ks1 ++ k :: ks2 →
      jsLookup kvs k = .arr xs →
      (∀ k' ∈ ks1, isArr (jsLookup kvs k') = false) →
      extractList (.obj kvs) = xs) ∧
    (∀ kvs k xs ks1 ks2, candidateKeysPL = ks1 ++ k :: ks2 →
      jsLookup kvs k = .arr xs →
      (∀ k' ∈ ks1, isArr (jsLookup kvs k') = false) →
      extractListPL (.obj kvs) = xs) := by
  refine ⟨fun xs => ⟨rfl, rfl⟩, ⟨rfl, rfl, rfl, rfl⟩, ?_, ?_, ?_, ?_⟩
  · intro kvs h
    simpa [extractList, truthy] using firstArrayAmong_eq_nil kvs _ h
  · intro kvs h
    simpa [extractListPL, truthy] using firstArrayAmong_eq_nil kvs _ h
  · intro kvs k xs ks1 ks2 hks hk h
    have := firstArrayAmong_eq_of_found kvs k xs ks1 ks2 hk h
    simpa [extractList, truthy, hks] using this
  · intro kvs k xs ks1 ks2 hks hk h
    have := firstArrayAmong_eq_of_found kvs k xs ks1 ks2 hk h
    simpa [extractListPL, truthy, hks] using this

/-- C3 witness: the amended theorem applied at a concrete payload whose
first array sits under the second candidate key leads, with the first
candidate lista holding a non-array. -/
theorem C3_extract_list_priority_order_witness :
    extractList (.obj [("lista", .str "x"), ("leads", .arr [.null])]) =
      [.null] :=
  C3_extract_list_priority_order.2.2.2.2.1
    [("lista", .str "x"), ("leads", .arr [.null])] "leads" [.null]
    ["lista"] ["atendimentos", "items", "resultado", "data"] rfl rfl
    (by intro k' hk'; simp at hk'; subst hk'; rfl)


section DateProofs

/-- Unfolding lemma: parseDateL yields null whenever the trimmed input is
empty (this covers empty and whitespace-only inputs). -/
theorem parseDateL_trim_nil (input : List Char) (h : jsTrim input = []) :
    parseDateL input = none := by
  by_cases hi : input = []
  · subst hi; rfl
  · simp only [parseDateL, if_neg hi, if_pos h]

/-- Unfolding lemma: parseDateL returns the trimmed input when it matches
the ISO anchor. -/
theorem parseDateL_iso (input : List Char) (hi : input ≠ [])
    (ht : jsTrim input ≠ []) (h : isoAnchor (jsTrim input) = true) :
    parseDateL input = some (jsTrim input) := by
  simp only [parseDateL, if_neg hi, if_neg ht, if_pos h]

/-- Unfolding lemma: parseDateL yields null when the input is not
ISO-anchored after trimming and its first space-separated token does not
split on slashes into exactly three components. -/
theorem parseDateL_no_date (input : List Char) (hi : input ≠ [])
    (ht : jsTrim input ≠ []) (hA : isoAnchor (jsTrim input) = false)
    (hL : (splitOnChar '/' ((splitOnChar ' ' (jsTrim input)).headD
      [])).length ≠ 3) :
    parseDateL input = none := by
  simp only [parseDateL, if_neg hi, if_neg ht, hA, if_false,
    Bool.false_eq_true]
  rcases hsp : splitOnChar '/' ((splitOnChar ' ' (jsTrim input)).headD [])
    with _ | ⟨a, _ | ⟨b, _ | ⟨c, _ | ⟨d, t⟩⟩⟩⟩
  · rfl
  · rfl
  · rfl
  · rw [hsp] at hL; simp at hL
  · rfl

/-- An anchored ISO match needs at least eleven characters. -/
theorem isoAnchor_length {l : List Char} (h : isoAnchor l = true) :
    11 ≤ l.length := by
  simp only [isoAnchor, Bool.and_eq_true, decide_eq_true_eq] at h
  exact h.1.1.1.1.1.1.1.1.1.1.1

/-- Rebuilding a string from its character list is the identity. -/
theorem String.mk_toList (s : String) : String.mk s.toList = s := rfl

end DateProofs

/-- C5 counterexample. The input with a trailing space matches the anchored
ISO regular expression (the anchor binds only the start of the string), yet
parseDate returns the trimmed string rather than the input unchanged. -/
theorem C5_cex_trailing_space_trimmed :
    isoAnchor ("2024-01-01T00:00 ".toList) = true ∧
    parseDate "2024-01-01T00:00 " = some "2024-01-01T00:00" ∧
    ("2024-01-01T00:00" : String) ≠ "2024-01-01T00:00 " := by
  refine ⟨by decide, by decide, by decide⟩

/-- C5 amended. Every input whose trimmed form matches the ISO anchor is
returned trimmed by parseDate; in particular an anchor-matching input
carrying no surrounding whitespace is returned unchanged. -/
theorem C5_iso_roundtrip (s : String)
    (h : isoAnchor (jsTrim s.toList) = true) :
    parseDate s = some (String.mk (jsTrim s.toList)) ∧
    (jsTrim s.toList = s.toList → parseDate s = some s) := by
  have hlen := isoAnchor_length h
  have htrim : jsTrim s.toList ≠ [] := by
    intro he
    rw [he] at hlen
    simp at hlen
  have hinput : s.toList ≠ [] := by
    intro he
    rw [he] at h
    simp [jsTrim, isoAnchor, charAt] at h
  have h1 : parseDate s = some (String.mk (jsTrim s.toList)) := by
    unfold parseDate
    rw [parseDateL_iso s.toList hinput htrim h]
    rfl
  refine ⟨h1, fun he => ?_⟩
  rw [he, String.mk_toList] at h1
  exact h1

/-- C5 witness: a trimmed ISO-anchored input round-trips unchanged. -/
theorem C5_iso_roundtrip_witness :
    parseDate "2024-01-01T09:30:00" = some "2024-01-01T09:30:00" :=
  (C5_iso_roundtrip "2024-01-01T09:30:00" (by decide)).2 (by decide)

/-- C6. Empty and whitespace-only inputs (trimming gives the empty list),
and inputs that neither match the ISO anchor after trimming nor have a
first space-separated token splitting on slashes into exactly three
components, are all normalized to null by parseDate: garbage input never
yields a non-null result. -/
theorem C6_unparseable_gives_null (s : String) :
    (jsTrim s.toList = [] → parseDate s = none) ∧
    (isoAnchor (jsTrim s.toList) = false →
      (splitOnChar '/' ((splitOnChar ' ' (jsTrim s.toList)).headD
        [])).length ≠ 3 →
      parseDate s = none) := by
  constructor
  · intro h
    unfold parseDate
    rw [parseDateL_trim_nil s.toList h]
    rfl
  · intro hA hL
    by_cases hi : s.toList = []
    · unfold parseDate
      rw [hi]
      rfl
    by_cases ht : jsTrim s.toList = []
    · unfold parseDate
      rw [parseDateL_trim_nil s.toList ht]
      rfl
    unfold parseDate
    rw [parseDateL_no_date s.toList hi ht hA hL]
    rfl

/-- C6 witness: a whitespace-only input and a garbage word both normalize
to null. -/
theorem C6_unparseable_gives_null_witness :
    parseDate "   " = none ∧ parseDate "garbage" = none :=
  ⟨(C6_unparseable_gives_null "   ").1 (by decide),
    (C6_unparseable_gives_null "garbage").2 (by decide) (by decide)⟩

section PhoneChain

/-- First non-empty string of a list (empty when none is non-empty): the
first-non-empty-wins reading of a fallback chain. -/
def firstTruthyStr : List String → String
  | [] => ""
  | s :: rest => if s = "" then firstTruthyStr rest else s

/-- Field list of an arbitrary JavaScript value (objects expose their
bindings, everything else none). -/
def jsFields : Json → List (String × Json)
  | .obj kvs => kvs
  | _ => []

/-- Modelled from the spec: the phone fallback chain exactly as the claim
words it — nested-lead telefone1, then nested-lead celular, then top-level
telefone, then top-level phone, first non-empty string wins — stated
independently of either normalizer for comparison against them. -/
def specPhoneChain (item : Json) : String :=
  firstTruthyStr
    [getStrF (leadFieldsOf (jsFields item)) "telefone1",
      getStrF (leadFieldsOf (jsFields item)) "celular",
      getStrF (jsFields item) "telefone",
      getStrF (jsFields item) "phone"]

end PhoneChain

/-- C7 counterexample. Neither normalizer implements the claimed four-step
chain: mapAtendimento has no top-level phone fallback (a record whose only
phone data sits under the top-level key phone normalizes to the empty
string, where the claimed chain yields that phone), and mapBruto reads
only top-level fields (a record whose only phone data sits under the
nested lead object normalizes to the empty string, where the claimed chain
yields that nested phone). -/
theorem C7_cex_phone_chain_mismatch :
    specPhoneChain (.obj [("phone", .str "123")]) = "123" ∧
    (mapAtendimentoCore [("phone", .str "123")] "r" "now").telefone = "" ∧
    specPhoneChain (.obj [("lead", .obj [("telefone1", .str "9")])]) =
      "9" ∧
    (mapBrutoCore [("lead", .obj [("telefone1", .str "9")])] "r"
      "now").telefone = "" := by
  refine ⟨rfl, rfl, rfl, rfl⟩

/-- C7 amended. The attendance normalizer resolves the phone by the chain
nested-lead telefone1, nested-lead celular, top-level telefone (empty
string when none is non-empty); the raw-lead normalizer by the all
top-level chain telefone1, celular, telefone, phone; in both, the first
non-empty string wins. In particular an attendance record with nested
telefone1 11999999999 and no top-level phone normalizes to that value. -/
theorem C7_phone_fallback_chains (kvs : List (String × Json))
    (rnd nowIso : String) :
    (mapAtendimentoCore kvs rnd nowIso).telefone =
      firstTruthyStr
        [getStrF (leadFieldsOf kvs) "telefone1",
          getStrF (leadFieldsOf kvs) "celular",
          getStrF kvs "telefone"] ∧
    (mapBrutoCore kvs rnd nowIso).telefone =
      firstTruthyStr
        [getStrF kvs "telefone1", getStrF kvs "celular",
          getStrF kvs "telefone", getStrF kvs "phone"] ∧
    (mapAtendimentoCore [("lead", .obj [("telefone1",
      .str "11999999999")])] rnd nowIso).telefone = "11999999999" := by
  refine ⟨rfl, rfl, rfl⟩

/-- C8 counterexample. A lead whose primeira_interacao is present but
equal to the empty string is counted pendente by the KPI computation, so
pendentes does not count exactly the leads whose primeira_interacao is
absent. -/
theorem C8_cex_empty_string_counted :
    (kpis [⟨"Novo", some ""⟩]).pendentes = 1 ∧
    (⟨"Novo", some ""⟩ : PageLead).primeira_interacao ≠ none := by
  refine ⟨rfl, by simp⟩

/-- C8 amended. The pendentes KPI counts the leads whose primeira_interacao
is falsy — absent or the empty string; a lead with no primeira_interacao is
therefore always counted, and on lists whose present first-interaction
values are non-empty (as the proxies produce) it counts exactly the leads
with primeira_interacao absent. -/
theorem C8_pendentes_counts_falsy (ls : List PageLead) :
    (kpis ls).pendentes =
      ls.countP (fun l => decide (l.primeira_interacao = none ∨
        l.primeira_interacao = some "")) ∧
    ((∀ l ∈ ls, l.primeira_interacao ≠ some "") →
      (kpis ls).pendentes =
        ls.countP (fun l => decide (l.primeira_interacao = none))) := by
  constructor
  · simp only [kpis, List.countP_eq_length_filter]
    congr 1
    apply List.filter_congr
    intro l _
    cases h : l.primeira_interacao with
    | none => simp [strOptTruthy]
    | some s =>
      by_cases hs : s = "" <;> simp [strOptTruthy, hs]
  · intro h
    simp only [kpis, List.countP_eq_length_filter]
    congr 1
    apply List.filter_congr
    intro l hl
    have := h l hl
    cases hp : l.primeira_interacao with
    | none => simp [strOptTruthy]
    | some s =>
      rw [hp] at this
      have hs : s ≠ "" := fun he => this (by rw [he])
      simp [strOptTruthy, hs]

/-- C8 witness: on a two-lead list with one absent and one non-empty
first interaction, pendentes is one. -/
theorem C8_pendentes_counts_falsy_witness :
    (kpis [⟨"Novo", none⟩, ⟨"Novo", some "2024-01-01T10:00:00"⟩]).pendentes
      = 1 :=
  (C8_pendentes_counts_falsy
    [⟨"Novo", none⟩, ⟨"Novo", some "2024-01-01T10:00:00"⟩]).2
    (by intro l hl; fin_cases hl <;> simp) |>.trans (by rfl)

/-- C10. Every lead the raw-lead normalizer produces has
primeira_interacao absent (falsy for the pendentes filter) and
tem_atendimento false; every lead the attendance normalizer produces has
tem_atendimento true; and the SLA computation of a lead with no first
interaction measures the wait against the current time: the
classification equals the one obtained with the first interaction set to
now, and the reported minutes are the floor of (now minus entry) over
60000. -/
theorem C10_brutos_pendente_sla_now :
    (∀ (item : Json) (rnd nowIso : String) (l : Lead),
      mapBruto item rnd nowIso = .ok l →
        l.primeira_interacao = none ∧ l.tem_atendimento = false ∧
          strOptTruthy l.primeira_interacao = false) ∧
    (∀ (item : Json) (rnd nowIso : String) (l : Lead),
      mapAtendimento item rnd nowIso = .ok l → l.tem_atendimento = true) ∧
    (∀ e now : Int,
      (getSLAInfo e none now).isLate = (getSLAInfo e (some now) now).isLate ∧
      (getSLAInfoRel e none now).diffMinutes = (now - e).fdiv (1000 * 60)) := by
  refine ⟨?_, ?_, fun e now => ⟨rfl, rfl⟩⟩
  · intro item rnd nowIso l h
    cases item <;> simp [mapBruto, objFields, Except.map] at h <;>
      simp [← h, mapBrutoCore, strOptTruthy]
  · intro item rnd nowIso l h
    cases item <;> simp [mapAtendimento, objFields, Except.map] at h <;>
      simp [← h, mapAtendimentoCore]

/-- C10 witness: the raw-lead normalizer applied to an empty object. -/
theorem C10_brutos_pendente_sla_now_witness :
    (mapBrutoCore [] "r" "2024-01-01T00:00:00.000Z").primeira_interacao =
      none ∧
    (mapBrutoCore [] "r" "2024-01-01T00:00:00.000Z").tem_atendimento =
      false ∧
    strOptTruthy
      (mapBrutoCore [] "r" "2024-01-01T00:00:00.000Z").primeira_interacao =
      false :=
  C10_brutos_pendente_sla_now.1 (.obj []) "r" "2024-01-01T00:00:00.000Z"
    (mapBrutoCore [] "r" "2024-01-01T00:00:00.000Z") rfl

section HandlerProofs

/-- A failed atendimento fetch contributes the empty list. -/
theorem fetchAtendimentosRes_fail (o : FetchOutcome)
    (h : o.isFail = true) : fetchAtendimentosRes o = [] := by
  cases o <;> simp_all [FetchOutcome.isFail, fetchAtendimentosRes]

/-- When every candidate URL of the raw-lead fetch fails, the result is
the empty list. -/
theorem fetchBrutosRes_fail (os : List FetchOutcome)
    (h : ∀ o ∈ os, o.isFail = true) : fetchBrutosRes os = [] := by
  induction os with
  | nil => rfl
  | cons o rest ih =>
    have ho := h o (List.mem_cons_self o rest)
    have hrest := fun o' ho' => h o' (List.mem_cons_of_mem o ho')
    cases o <;> simp_all [FetchOutcome.isFail, fetchBrutosRes]

/-- A failed proxy-leads fetch extracts to the empty list. -/
theorem extractListPL_fetchLeadsRes_fail (o : FetchOutcome)
    (h : o.isFail = true) : extractListPL (fetchLeadsRes o) = [] := by
  cases o <;> simp_all [FetchOutcome.isFail, fetchLeadsRes, extractListPL,
    truthy]

end HandlerProofs

/-- C2 counterexample. With the API key present and one upstream fetch
succeeding with the parseable payload whose lista array contains null, the
proxy-leads handler returns status 500 with an error body: mapping the
null item throws a TypeError on the item.codigo access, and the outer
try/catch converts it into the 500 response — so a missing API key is not
the only way the handler returns 500. -/
theorem C2_cex_mapping_throw_500 :
    proxyLeadsGET (some "key") (.ok (.obj [("lista", .arr [.null])])) .exn
      (fun _ => "r") "2024-01-01T00:00:00.000Z" (fun _ => 0) =
    ⟨500, .error "Falha interna ao conectar com a API"⟩ := rfl

/-- C2 amended. Missing API key gives 500 with an error body in both
handlers before any fetch; for every combination of the failure outcomes
(fetch exception, non-OK response, unparseable body) both handlers return
200 with the empty best-effort list; and with the key present the
proxy-leads handler either returns 200 with a leads list or returns 500
because mapping a successfully fetched payload threw (a null item), while
the proxy-leads-all handler either returns 200 with a leads list or
propagates such an exception out of the handler instead of returning. -/
theorem C2_handlers_error_swallowing :
    (∀ (o1 o2 : FetchOutcome) (rnd : Nat → String) (nowIso : String)
        (dparse : String → Int),
      proxyLeadsGET none o1 o2 rnd nowIso dparse =
        ⟨500, .error
          "API Key não configurada no servidor (IMOVIEW_API_KEY)"⟩) ∧
    (∀ (a1 a2 b1 b2 b3 : FetchOutcome) (rndA rndB : Nat → String)
        (nowIso : String) (dparse : String → Int),
      proxyLeadsAllGET none a1 a2 b1 b2 b3 rndA rndB nowIso dparse =
        .ok ⟨500, .error
          "API Key não configurada no servidor (IMOVIEW_API_KEY)"⟩) ∧
    (∀ (k : String) (o1 o2 : FetchOutcome), o1.isFail = true →
      o2.isFail = true →
      ∀ (rnd : Nat → String) (nowIso : String) (dparse : String → Int),
      proxyLeadsGET (some k) o1 o2 rnd nowIso dparse = ⟨200, .leads []⟩) ∧
    (∀ (k : String) (a1 a2 b1 b2 b3 : FetchOutcome), a1.isFail = true →
      a2.isFail = true → b1.isFail = true → b2.isFail = true →
      b3.isFail = true →
      ∀ (rndA rndB : Nat → String) (nowIso : String) (dparse : String → Int),
      proxyLeadsAllGET (some k) a1 a2 b1 b2 b3 rndA rndB nowIso dparse =
        .ok ⟨200, .leads []⟩) ∧
    (∀ (k : String) (o1 o2 : FetchOutcome) (rnd : Nat → String)
        (nowIso : String) (dparse : String → Int),
      (∃ ls, proxyLeadsGET (some k) o1 o2 rnd nowIso dparse =
        ⟨200, .leads ls⟩) ∨
      proxyLeadsGET (some k) o1 o2 rnd nowIso dparse =
        ⟨500, .error "Falha interna ao conectar com a API"⟩) ∧
    (∀ (k : String) (a1 a2 b1 b2 b3 : FetchOutcome) (rndA rndB : Nat → String)
        (nowIso : String) (dparse : String → Int),
      (∃ ls, proxyLeadsAllGET (some k) a1 a2 b1 b2 b3 rndA rndB nowIso dparse
        = .ok ⟨200, .leads ls⟩) ∨
      proxyLeadsAllGET (some k) a1 a2 b1 b2 b3 rndA rndB nowIso dparse =
        .error ()) := by
  refine ⟨fun _ _ _ _ _ => rfl, fun _ _ _ _ _ _ _ _ _ => rfl, ?_, ?_, ?_, ?_⟩
  · intro k o1 o2 h1 h2 rnd nowIso dparse
    simp only [proxyLeadsGET]
    rw [extractListPL_fetchLeadsRes_fail o1 h1,
      extractListPL_fetchLeadsRes_fail o2 h2]
    rfl
  · intro k a1 a2 b1 b2 b3 h1 h2 h3 h4 h5 rndA rndB nowIso dparse
    simp only [proxyLeadsAllGET]
    rw [fetchAtendimentosRes_fail a1 h1, fetchAtendimentosRes_fail a2 h2,
      fetchBrutosRes_fail [b1, b2, b3] (by
        intro o ho
        simp at ho
        rcases ho with h | h | h <;> subst h <;> assumption)]
    rfl
  · intro k o1 o2 rnd nowIso dparse
    simp only [proxyLeadsGET]
    cases hm : mapAllJ (fun it r => mapLeadPL it r nowIso) rnd
        (extractListPL (fetchLeadsRes o1) ++ extractListPL (fetchLeadsRes o2))
        0 with
    | error e => right; simp [hm]
    | ok ls =>
      left
      exact ⟨sortByKeyDesc (fun l => dparse l.data_entrada) ls, by simp [hm]⟩
  · intro k a1 a2 b1 b2 b3 rndA rndB nowIso dparse
    simp only [proxyLeadsAllGET]
    cases hm1 : mapAllJ (fun it r => mapAtendimento it r nowIso) rndA
        (fetchAtendimentosRes a1 ++ fetchAtendimentosRes a2) 0 with
    | error e => right; simp [hm1, Bind.bind, Except.bind]
    | ok ls1 =>
      cases hm2 : mapAllJ (fun it r => mapBruto it r nowIso) rndB
          (fetchBrutosRes [b1, b2, b3]) 0 with
      | error e => right; simp [hm1, hm2, Bind.bind, Except.bind]
      | ok ls2 =>
        left
        exact ⟨sortByKeyDesc (fun l => dparse l.data_entrada) (ls2 ++ ls1),
          by simp [hm1, hm2, Bind.bind, Except.bind, pure, Except.pure]⟩

/-- C2 witness: with the key present and every source failing (exception,
non-OK, unparseable body mixed), both handlers return 200 with the empty
list. -/
theorem C2_handlers_error_swallowing_witness :
    proxyLeadsGET (some "k") .exn .nonOk (fun _ => "r") "now" (fun _ => 0) =
      ⟨200, .leads []⟩ ∧
    proxyLeadsAllGET (some "k") .exn .nonOk .badBody .exn .nonOk
      (fun _ => "r") (fun _ => "r") "now" (fun _ => 0) =
      .ok ⟨200, .leads []⟩ :=
  ⟨C2_handlers_error_swallowing.2.2.1 "k" .exn .nonOk rfl rfl
      (fun _ => "r") "now" (fun _ => 0),
    C2_handlers_error_swallowing.2.2.2.1 "k" .exn .nonOk .badBody .exn
      .nonOk rfl rfl rfl rfl rfl (fun _ => "r") (fun _ => "r") "now"
      (fun _ => 0)⟩

section DigitFacts

/-- A digit character is not whitespace. -/
theorem wsOfDigit (c : Char) (h : c.isDigit = true) : isWs c = false := by
  simp only [isWs, Bool.or_eq_false_iff]
  refine ⟨⟨⟨?_, ?_⟩, ?_⟩, ?_⟩ <;>
    · simp only [decide_eq_false_iff_not]
      intro he
      subst he
      exact absurd h (by decide)

/-- A digit character is not the space separator. -/
theorem neSpaceOfDigit (c : Char) (h : c.isDigit = true) :
    (c = ' ') = False := by
  simp only [eq_iff_iff, iff_false]
  intro he; subst he; exact absurd h (by decide)

/-- A digit character is not the slash separator. -/
theorem neSlashOfDigit (c : Char) (h : c.isDigit = true) :
    (c = '/') = False := by
  simp only [eq_iff_iff, iff_false]
  intro he; subst he; exact absurd h (by decide)

/-- A digit character is not the colon separator. -/
theorem neColonOfDigit (c : Char) (h : c.isDigit = true) :
    (c = ':') = False := by
  simp only [eq_iff_iff, iff_false]
  intro he; subst he; exact absurd h (by decide)

end DigitFacts

/-- C4. On every well-formed input of the form DD/MM/YYYY HH:mm (digit
characters in each position), both date normalizers reorder day, month and
year and append seconds, yielding YYYY-MM-DDTHH:mm:00; and on DD/MM/YYYY
without a time part both default the time to 00:00, yielding
YYYY-MM-DDT00:00:00. -/
theorem C4_ddmmyyyy_normalization
    (d0 d1 m0 m1 y0 y1 y2 y3 h0 h1 i0 i1 : Char)
    (hd0 : d0.isDigit = true) (hd1 : d1.isDigit = true)
    (hm0 : m0.isDigit = true) (hm1 : m1.isDigit = true)
    (hy0 : y0.isDigit = true) (hy1 : y1.isDigit = true)
    (hy2 : y2.isDigit = true) (hy3 : y3.isDigit = true)
    (hh0 : h0.isDigit = true) (hh1 : h1.isDigit = true)
    (hi0 : i0.isDigit = true) (hi1 : i1.isDigit = true) :
    parseDate (String.mk [d0, d1, '/', m0, m1, '/', y0, y1, y2, y3, ' ',
        h0, h1, ':', i0, i1]) =
      some (String.mk [y0, y1, y2, y3, '-', m0, m1, '-', d0, d1, 'T',
        h0, h1, ':', i0, i1, ':', '0', '0']) ∧
    parseDate (String.mk [d0, d1, '/', m0, m1, '/', y0, y1, y2, y3]) =
      some (String.mk [y0, y1, y2, y3, '-', m0, m1, '-', d0, d1, 'T',
        '0', '0', ':', '0', '0', ':', '0', '0']) ∧
    parseImoviewDate (.str (String.mk [d0, d1, '/', m0, m1, '/', y0, y1,
        y2, y3, ' ', h0, h1, ':', i0, i1])) =
      some [y0, y1, y2, y3, '-', m0, m1, '-', d0, d1, 'T',
        h0, h1, ':', i0, i1, ':', '0', '0'] ∧
    parseImoviewDate (.str (String.mk [d0, d1, '/', m0, m1, '/', y0, y1,
        y2, y3])) =
      some [y0, y1, y2, y3, '-', m0, m1, '-', d0, d1, 'T',
        '0', '0', ':', '0', '0', ':', '0', '0'] := by
  refine ⟨?_, ?_, ?_, ?_⟩
  · simp [parseDate, parseDateL, jsTrim, splitOnChar, isoAnchor, charAt,
      String.toList, List.dropWhile,
      wsOfDigit, neSpaceOfDigit, neSlashOfDigit, neColonOfDigit,
      hd0, hd1, hm0, hm1, hy0, hy1, hy2, hy3, hh0, hh1, hi0, hi1]
  · simp [parseDate, parseDateL, jsTrim, splitOnChar, isoAnchor, charAt,
      String.toList, List.dropWhile,
      wsOfDigit, neSpaceOfDigit, neSlashOfDigit, neColonOfDigit,
      hd0, hd1, hm0, hm1, hy0, hy1, hy2, hy3]
  · simp [parseImoviewDate, truthy, toStrU, splitOnChar, String.toList,
      String.ext_iff, wsOfDigit, neSpaceOfDigit, neSlashOfDigit,
      neColonOfDigit,
      hd0, hd1, hm0, hm1, hy0, hy1, hy2, hy3, hh0, hh1, hi0, hi1]
  · simp [parseImoviewDate, truthy, toStrU, splitOnChar, String.toList,
      String.ext_iff, wsOfDigit, neSpaceOfDigit, neSlashOfDigit,
      neColonOfDigit,
      hd0, hd1, hm0, hm1, hy0, hy1, hy2, hy3]

/-- C4 witness: the spec example 25/12/2024 14:30 normalizes to
2024-12-25T14:30:00, and 25/12/2024 without a time part to
2024-12-25T00:00:00. -/
theorem C4_ddmmyyyy_normalization_witness :
    parseDate "25/12/2024 14:30" = some "2024-12-25T14:30:00" ∧
    parseDate "25/12/2024" = some "2024-12-25T00:00:00" := by
  have h := C4_ddmmyyyy_normalization '2' '5' '1' '2' '2' '0' '2' '4'
    '1' '4' '3' '0' (by decide) (by decide) (by decide) (by decide)
    (by decide) (by decide) (by decide) (by decide) (by decide)
    (by decide) (by decide) (by decide)
  have e1 : String.mk ['2', '5', '/', '1', '2', '/', '2', '0', '2', '4',
      ' ', '1', '4', ':', '3', '0'] = "25/12/2024 14:30" := by decide
  have e2 : String.mk ['2', '0', '2', '4', '-', '1', '2', '-', '2', '5',
      'T', '1', '4', ':', '3', '0', ':', '0', '0'] =
      "2024-12-25T14:30:00" := by decide
  have e3 : String.mk ['2', '5', '/', '1', '2', '/', '2', '0', '2', '4'] =
      "25/12/2024" := by decide
  have e4 : String.mk ['2', '0', '2', '4', '-', '1', '2', '-', '2', '5',
      'T', '0', '0', ':', '0', '0', ':', '0', '0'] =
      "2024-12-25T00:00:00" := by decide
  obtain ⟨h1, h2, -, -⟩ := h
  rw [e1, e2] at h1
  rw [e3, e4] at h2
  exact ⟨h1, h2⟩

/-- C9 counterexample. The normalizers can emit a malformed data_entrada:
an attendance record whose upstream entry date is the garbage string a/b/c
still slash-splits into three components, so parseDate reorders it into
c-b-aT00:00:00, which mapAtendimento stores as data_entrada even though it
is not a valid ISO 8601 string (every ISO 8601 date-time matches the
four-digit anchor, which this value fails). -/
theorem C9_cex_malformed_data_entrada :
    (mapAtendimentoCore [("datahoraentradalead", .str "a/b/c")] "r"
      "2024-01-01T00:00:00.000Z").data_entrada = "c-b-aT00:00:00" ∧
    isoAnchor ("c-b-aT00:00:00".toList) = false := by
  refine ⟨by decide, by decide⟩

/-- C9 amended. The normalized data_entrada is never missing: when neither
upstream entry-date field parses it is exactly the current-time ISO string,
and otherwise it is the non-empty parseDate result of one of the two
upstream fields — but that result is a valid (anchored) ISO string only
when the upstream field is itself well-formed, as in the last conjunct
(digit-built DD/MM/YYYY HH:mm input makes data_entrada match the ISO
anchor); primeira_interacao is either absent or a non-empty parseDate
result of one of its two upstream fields (for mapBruto, always absent). -/
theorem C9_data_entrada_invariant :
    (∀ (kvs : List (String × Json)) (rnd nowIso : String),
      parseDate (getStrF kvs "datahoraentradalead") = none →
      parseDate (getStrF kvs "data_entrada") = none →
      (mapAtendimentoCore kvs rnd nowIso).data_entrada = nowIso) ∧
    (∀ (kvs : List (String × Json)) (rnd nowIso : String),
      parseDate (getStrF kvs "data_criacao") = none →
      parseDate (getStrF kvs "datahoraentradalead") = none →
      (mapBrutoCore kvs rnd nowIso).data_entrada = nowIso) ∧
    (∀ (kvs : List (String × Json)) (rnd nowIso : String),
      (mapAtendimentoCore kvs rnd nowIso).data_entrada = nowIso ∨
      ∃ s, s ≠ "" ∧ (mapAtendimentoCore kvs rnd nowIso).data_entrada = s ∧
        (parseDate (getStrF kvs "datahoraentradalead") = some s ∨
          parseDate (getStrF kvs "data_entrada") = some s)) ∧
    (∀ (kvs : List (String × Json)) (rnd nowIso : String),
      (mapBrutoCore kvs rnd nowIso).data_entrada = nowIso ∨
      ∃ s, s ≠ "" ∧ (mapBrutoCore kvs rnd nowIso).data_entrada = s ∧
        (parseDate (getStrF kvs "data_criacao") = some s ∨
          parseDate (getStrF kvs "datahoraentradalead") = some s)) ∧
    (∀ (kvs : List (String × Json)) (rnd nowIso : String),
      (mapAtendimentoCore kvs rnd nowIso).primeira_interacao = none ∨
      ∃ s, s ≠ "" ∧
        (mapAtendimentoCore kvs rnd nowIso).primeira_interacao = some s ∧
        (parseDate (getStrF kvs "datahoraultimainteracao") = some s ∨
          parseDate (getStrF kvs "primeira_interacao") = some s)) ∧
    (∀ (kvs : List (String × Json)) (rnd nowIso : String),
      (mapBrutoCore kvs rnd nowIso).primeira_interacao = none) ∧
    (∀ (kvs : List (String × Json)) (rnd nowIso : String)
        (d0 d1 m0 m1 y0 y1 y2 y3 h0 h1 i0 i1 : Char),
      d0.isDigit = true → d1.isDigit = true → m0.isDigit = true →
      m1.isDigit = true → y0.isDigit = true → y1.isDigit = true →
      y2.isDigit = true → y3.isDigit = true → h0.isDigit = true →
      h1.isDigit = true → i0.isDigit = true → i1.isDigit = true →
      getStrF kvs "datahoraentradalead" =
        String.mk [d0, d1, '/', m0, m1, '/', y0, y1, y2, y3, ' ',
          h0, h1, ':', i0, i1] →
      isoAnchor
        ((mapAtendimentoCore kvs rnd nowIso).data_entrada).toList = true) := by
  refine ⟨?_, ?_, ?_, ?_, ?_, fun kvs rnd nowIso => rfl, ?_⟩
  · intro kvs rnd nowIso h1 h2
    simp [mapAtendimentoCore, h1, h2, jsOrO, jsOrOD]
  · intro kvs rnd nowIso h1 h2
    simp [mapBrutoCore, h1, h2, jsOrO, jsOrOD]
  · intro kvs rnd nowIso
    rcases hp1 : parseDate (getStrF kvs "datahoraentradalead") with - | s1
    · rcases hp2 : parseDate (getStrF kvs "data_entrada") with - | s2
      · left; simp [mapAtendimentoCore, hp1, hp2, jsOrO, jsOrOD]
      · by_cases he2 : s2 = ""
        · left; simp [mapAtendimentoCore, hp1, hp2, he2, jsOrO, jsOrOD]
        · right
          exact ⟨s2, he2,
            by simp [mapAtendimentoCore, hp1, hp2, he2, jsOrO, jsOrOD],
            Or.inr rfl⟩
    · by_cases he1 : s1 = ""
      · rcases hp2 : parseDate (getStrF kvs "data_entrada") with - | s2
        · left; simp [mapAtendimentoCore, hp1, hp2, he1, jsOrO, jsOrOD]
        · by_cases he2 : s2 = ""
          · left; simp [mapAtendimentoCore, hp1, hp2, he1, he2, jsOrO, jsOrOD]
          · right
            exact ⟨s2, he2,
              by simp [mapAtendimentoCore, hp1, hp2, he1, he2, jsOrO, jsOrOD],
              Or.inr rfl⟩
      · right
        exact ⟨s1, he1,
          by simp [mapAtendimentoCore, hp1, he1, jsOrO, jsOrOD],
          Or.inl rfl⟩
  · intro kvs rnd nowIso
    rcases hp1 : parseDate (getStrF kvs "data_criacao") with - | s1
    · rcases hp2 : parseDate (getStrF kvs "datahoraentradalead") with - | s2
      · left; simp [mapBrutoCore, hp1, hp2, jsOrO, jsOrOD]
      · by_cases he2 : s2 = ""
        · left; simp [mapBrutoCore, hp1, hp2, he2, jsOrO, jsOrOD]
        · right
          exact ⟨s2, he2,
            by simp [mapBrutoCore, hp1, hp2, he2, jsOrO, jsOrOD],
            Or.inr rfl⟩
    · by_cases he1 : s1 = ""
      · rcases hp2 : parseDate (getStrF kvs "datahoraentradalead") with - | s2
        · left; simp [mapBrutoCore, hp1, hp2, he1, jsOrO, jsOrOD]
        · by_cases he2 : s2 = ""
          · left; simp [mapBrutoCore, hp1, hp2, he1, he2, jsOrO, jsOrOD]
          · right
            exact ⟨s2, he2,
              by simp [mapBrutoCore, hp1, hp2, he1, he2, jsOrO, jsOrOD],
              Or.inr rfl⟩
      · right
        exact ⟨s1, he1,
          by simp [mapBrutoCore, hp1, he1, jsOrO, jsOrOD],
          Or.inl rfl⟩
  · intro kvs rnd nowIso
    rcases hp1 : parseDate (getStrF kvs "datahoraultimainteracao") with - | s1
    · rcases hp2 : parseDate (getStrF kvs "primeira_interacao") with - | s2
      · left; simp [mapAtendimentoCore, hp1, hp2, jsOrO]
      · by_cases he2 : s2 = ""
        · left; simp [mapAtendimentoCore, hp1, hp2, he2, jsOrO]
        · right
          exact ⟨s2, he2,
            by simp [mapAtendimentoCore, hp1, hp2, he2, jsOrO],
            Or.inr rfl⟩
    · by_cases he1 : s1 = ""
      · rcases hp2 : parseDate (getStrF kvs "primeira_interacao") with - | s2
        · left; simp [mapAtendimentoCore, hp1, hp2, he1, jsOrO]
        · by_cases he2 : s2 = ""
          · left; simp [mapAtendimentoCore, hp1, hp2, he1, he2, jsOrO]
          · right
            exact ⟨s2, he2,
              by simp [mapAtendimentoCore, hp1, hp2, he1, he2, jsOrO],
              Or.inr rfl⟩
      · right
        exact ⟨s1, he1,
          by simp [mapAtendimentoCore, hp1, he1, jsOrO],
          Or.inl rfl⟩
  · intro kvs rnd nowIso d0 d1 m0 m1 y0 y1 y2 y3 h0 h1 i0 i1
      hd0 hd1 hm0 hm1 hy0 hy1 hy2 hy3 hh0 hh1 hi0 hi1 hf
    have hp := (C4_ddmmyyyy_normalization d0 d1 m0 m1 y0 y1 y2 y3 h0 h1
      i0 i1 hd0 hd1 hm0 hm1 hy0 hy1 hy2 hy3 hh0 hh1 hi0 hi1).1
    have hde : (mapAtendimentoCore kvs rnd nowIso).data_entrada =
        String.mk [y0, y1, y2, y3, '-', m0, m1, '-', d0, d1, 'T',
          h0, h1, ':', i0, i1, ':', '0', '0'] := by
      simp [mapAtendimentoCore, hf, hp, jsOrO, jsOrOD, String.ext_iff]
    rw [hde]
    simp [isoAnchor, charAt, String.toList, hy0, hy1, hy2, hy3, hm0, hm1,
      hd0, hd1]

/-- C9 witness: with no parseable upstream entry date the fallback is the
current time, and with the well-formed upstream date 25/12/2024 14:30 the
normalized data_entrada matches the ISO anchor. -/
theorem C9_data_entrada_invariant_witness :
    (mapAtendimentoCore [] "r" "2024-01-01T00:00:00.000Z").data_entrada =
      "2024-01-01T00:00:00.000Z" ∧
    isoAnchor
      ((mapAtendimentoCore [("datahoraentradalead",
        .str "25/12/2024 14:30")] "r"
        "2024-01-01T00:00:00.000Z").data_entrada).toList = true :=
  ⟨C9_data_entrada_invariant.1 [] "r" "2024-01-01T00:00:00.000Z"
      (by decide) (by decide),
    C9_data_entrada_invariant.2.2.2.2.2.2
      [("datahoraentradalead", .str "25/12/2024 14:30")] "r"
      "2024-01-01T00:00:00.000Z" '2' '5' '1' '2' '2' '0' '2' '4' '1' '4'
      '3' '0' (by decide) (by decide) (by decide) (by decide) (by decide)
      (by decide) (by decide) (by decide) (by decide) (by decide)
      (by decide) (by decide) (by decide)⟩
